import Mathlib

/-!
Verification development for a REST API with JWT-based authentication and
refresh-token session management.

The core under study is the session and token lifecycle:
- Token Codec (src/utils/jwt.utils.ts): signJwt / verifyJwt over an RS256 keypair.
- Request Authentication Middleware (src/middleware/deserializeUser.ts).
- Product controller handlers (src/controller/product.controller.ts).
- Session Lifecycle Manager and Session Store (service/session.service and the
  session model are not part of the provided sources; those operations are
  modelled from the specification, each marked `Modelled from the spec:`).

Machine-level conventions: wall-clock time is an explicit `now : Nat` argument
(seconds); JWT compact strings are modelled by the inductive `Token`, which
records either a signed payload with its expiry claim, signing algorithm and
signing key, or an arbitrary malformed string. The underlying `jsonwebtoken`
verifier is modelled by `jwtVerify`, which returns `Except` the way the library
throws, with the library's error messages.
-/

namespace RestApi

/-- Signing algorithms that can appear in a token header. The source pins
"RS256"; a second constructor keeps "caller asked for a different algorithm"
expressible. -/
inductive Alg where
  | RS256
  | HS256
deriving DecidableEq

/-- Decoded JWT payloads used by this application: an access token carries a
denormalized user snapshot (id, email, name); a refresh token carries the
session identifier only. -/
inductive Claims where
  | user (id email name : String)
  | session (sessionId : Nat)
deriving DecidableEq

/-- A compact JWT string: either a well-formed token signed with some key and
algorithm, carrying its payload and optional expiry claim, or a malformed
string (anything that is not a JWT at all). -/
inductive Token where
  | signed (payload : Claims) (exp : Option Nat) (alg : Alg) (key : Nat)
  | malformed (raw : String)
deriving DecidableEq

/-- The configured private signing key (config "privateKey"), identified
abstractly: a token is signature-valid against the public key iff it was
produced with the matching private key. -/
def privateKeyId : Nat := 0

/-- The configured public verification key (config "publicKey"); it matches
`privateKeyId`. -/
def publicKeyId : Nat := 0

/-- Errors thrown by the underlying jsonwebtoken verifier. -/
inductive JwtError where
  | malformed
  | invalidSignature
  | expired
deriving DecidableEq

/-- The error message carried by each jsonwebtoken error, as the library
produces it; the source compares against the string "jwt expired". -/
def JwtError.message : JwtError → String
  | .malformed => "jwt malformed"
  | .invalidSignature => "invalid signature"
  | .expired => "jwt expired"

/-- Model of jsonwebtoken's jwt.verify(token, publicKey): throws (returns
`.error`) on malformed input or a signature that does not verify against the
given public key (including a non-RS256 algorithm), throws "jwt expired" when
the embedded exp claim is at or before the current time, and otherwise returns
the decoded payload. -/
def jwtVerify (now : Nat) (pubKey : Nat) : Token → Except JwtError Claims
  | .malformed _ => .error .malformed
  | .signed payload exp alg key =>
      if key == pubKey && alg == Alg.RS256 then
        match exp with
        | none => .ok payload
        | some e => if e ≤ now then .error .expired else .ok payload
      else .error .invalidSignature

/-- Options object accepted by jwt.sign / signJwt. -/
structure SignOptions where
  algorithm : Option Alg := none
  expiresIn : Option Nat := none
deriving DecidableEq

/-- The result shape of verifyJwt in src/utils/jwt.utils.ts:
\x7b valid, expired, decoded \x7d. -/
structure VerifyResult where
  valid : Bool
  expired : Bool
  decoded : Option Claims
deriving DecidableEq

/-- The option merge performed by signJwt: `\x7b ...(options && options),
algorithm: "RS256" \x7d` — spread the caller's options first, then overwrite the
algorithm field with RS256. -/
def mergeSignOptions : Option SignOptions → SignOptions
  | none => { algorithm := some Alg.RS256 }
  | some o => { o with algorithm := some Alg.RS256 }

/-- signJwt from src/utils/jwt.utils.ts: jwt.sign(object, privateKey, merged
options). The expiresIn option, when present, yields an exp claim of
now + ttl. -/
def signJwt (now : Nat) (object : Claims) (options : Option SignOptions) : Token :=
  let opts := mergeSignOptions options
  Token.signed object (opts.expiresIn.map (fun ttl => now + ttl))
    (opts.algorithm.getD Alg.RS256) privateKeyId

/-- verifyJwt from src/utils/jwt.utils.ts: calls jwt.verify with the module's
public key inside try/catch; on success returns \x7b valid: true, expired: false,
decoded \x7d, on any thrown error returns \x7b valid: false, expired: e.message ===
"jwt expired", decoded: null \x7d (after a non-fatal console.error log). Callers
that pass an extra key-name argument (as deserializeUser does) are unaffected:
the extra argument is ignored at runtime. -/
def verifyJwt (now : Nat) (token : Token) : VerifyResult :=
  match jwtVerify now publicKeyId token with
  | .ok decoded => ⟨true, false, some decoded⟩
  | .error e => ⟨false, e.message == "jwt expired", none⟩

/-- A token whose signature verifies against the configured public key. -/
def wellSigned : Token → Bool
  | .malformed _ => false
  | .signed _ _ alg key => key == publicKeyId && alg == Alg.RS256

/-- Whether a token's exp claim has passed at time `now`. -/
def tokenExpiredAt (now : Nat) : Token → Bool
  | .malformed _ => false
  | .signed _ none _ _ => false
  | .signed _ (some e) _ _ => e ≤ now

/-- The payload embedded in a token, when it is well-formed. -/
def tokenClaims : Token → Option Claims
  | .malformed _ => none
  | .signed payload _ _ _ => some payload

/-- The exp claim embedded in a token, when present. -/
def tokenExp : Token → Option Nat
  | .malformed _ => none
  | .signed _ exp _ _ => exp

/-- The algorithm recorded in a token's header, for well-formed tokens. -/
def tokenAlg : Token → Option Alg
  | .malformed _ => none
  | .signed _ _ alg _ => some alg

/-- A persisted Session record: \x7b id, userId, valid, userAgent, createdAt,
updatedAt \x7d as laid out in the spec's persisted-state section. -/
structure Session where
  _id : Nat
  user : String
  valid : Bool
  userAgent : String
  createdAt : Nat
  updatedAt : Nat
deriving DecidableEq

/-- The persistent session collection, in insertion order. -/
abbrev SessionStore := List Session

/-- Modelled from the spec: Session Store `create(userId, userAgent)`
(service/session.service createSession is not among the provided sources) —
persists a new Session with valid=true and returns it. -/
def createSession (st : SessionStore) (newId : Nat) (userId userAgent : String)
    (now : Nat) : Session × SessionStore :=
  let s : Session := ⟨newId, userId, true, userAgent, now, now⟩
  (s, st ++ [s])

/-- Modelled from the spec: Session Store `findById(sessionId)` — the session
with the given identifier, or null. -/
def findSessionById (st : SessionStore) (sid : Nat) : Option Session :=
  st.find? (fun s => s._id == sid)

/-- Modelled from the spec: Session Store `invalidate(sessionId)` — sets
valid=false; idempotent, a no-op on an already-invalid or nonexistent
session. -/
def invalidateSession (st : SessionStore) (sid : Nat) : SessionStore :=
  st.map (fun s => if s._id == sid then { s with valid := false } else s)

/-- Modelled from the spec: Session Store `findActiveByUser(userId)` — the
sessions of the user where valid=true, for session listing. -/
def findActiveSessionsByUser (st : SessionStore) (userId : String) : List Session :=
  st.filter (fun s => s.user == userId && s.valid)

/-- A stored user record from the credential store (the user model is not
among the provided sources; referenced by identifier within the core). -/
structure User where
  _id : String
  email : String
  name : String
  passwordHash : String
deriving DecidableEq

/-- Modelled from the spec: the credential store's password hash of a
plaintext, abstractly (hashing internals are out of scope). -/
def hashOf (plaintext : String) : String := "hashed:" ++ plaintext

/-- Modelled from the spec: credential store `findByEmail(email)`. -/
def findUserByEmail (users : List User) (email : String) : Option User :=
  users.find? (fun u => u.email == email)

/-- Lookup of the owning user by identifier, used during refresh. -/
def findUserById (users : List User) (uid : String) : Option User :=
  users.find? (fun u => u._id == uid)

/-- Modelled from the spec: credential store `verifyPassword(user, plaintext)`
— compare the plaintext against the stored hash. -/
def validatePassword (u : User) (plaintext : String) : Bool :=
  u.passwordHash == hashOf plaintext

/-- Access-token time to live: short (config accessTokenTtl, 15 minutes). -/
def accessTokenTtl : Nat := 900

/-- Refresh-token time to live: long (config refreshTokenTtl, one year). -/
def refreshTokenTtl : Nat := 31536000

/-- The session identifier carried by a decoded payload, when the payload
references one (refresh-token payloads do; access-token payloads carry only
the user snapshot). -/
def Claims.sessionOf : Claims → Option Nat
  | .session sid => some sid
  | .user _ _ _ => none

/-- The fresh denormalized user snapshot placed in a (re)issued access
token. -/
def userSnapshot (u : User) : Claims :=
  Claims.user u._id u.email u.name

/-- Modelled from the spec: `reIssueAccessToken(refreshToken)` of the Session
Lifecycle Manager (service/session.service is not among the provided sources).
Verify the refresh token via the Token Codec; if invalid or expired return
null. Extract the session identifier from the payload and look up the Session;
if absent or valid=false return null. Look up the owning user; if absent
return null. Otherwise issue a fresh access token with the short TTL and a
freshly denormalized user snapshot. -/
def reIssueAccessToken (now : Nat) (users : List User) (st : SessionStore)
    (refreshToken : Token) : Option Token :=
  match (verifyJwt now refreshToken).decoded with
  | none => none
  | some claims =>
    match claims.sessionOf with
    | none => none
    | some sid =>
      match findSessionById st sid with
      | none => none
      | some session =>
        if session.valid then
          match findUserById users session.user with
          | none => none
          | some user =>
              some (signJwt now (userSnapshot user)
                (some { expiresIn := some accessTokenTtl }))
        else none

/-- The login failure taxonomy entry: unknown email and wrong password are not
distinguished. -/
inductive AuthError where
  | invalidCredentials
deriving DecidableEq

/-- The successful login result: both tokens, the updated session collection
and the new session's identifier. -/
structure LoginOk where
  accessToken : Token
  refreshToken : Token
  sessions : SessionStore
  sessionId : Nat
deriving DecidableEq

/-- Modelled from the spec: `login(email, password, userAgent)` of the Session
Lifecycle Manager (the session controller is not among the provided sources).
Locate the user by email, failing with InvalidCredentials if absent; verify
the password against the stored hash, failing with InvalidCredentials on
mismatch; create an ACTIVE session; issue an access token with the short TTL
carrying the denormalized user snapshot and a refresh token with the long TTL
carrying only the session identifier. -/
def login (now newSid : Nat) (users : List User) (st : SessionStore)
    (email password userAgent : String) : Except AuthError LoginOk :=
  match findUserByEmail users email with
  | none => .error .invalidCredentials
  | some u =>
    if validatePassword u password then
      let created := createSession st newSid u._id userAgent now
      let accessToken := signJwt now (userSnapshot u)
        (some { expiresIn := some accessTokenTtl })
      let refreshToken := signJwt now (Claims.session created.1._id)
        (some { expiresIn := some refreshTokenTtl })
      .ok ⟨accessToken, refreshToken, created.2, created.1._id⟩
    else .error .invalidCredentials

/-- Modelled from the spec: `logout(sessionId)` — invalidates the Session;
always succeeds, even if the session was already revoked or never existed. -/
def logout (st : SessionStore) (sid : Nat) : SessionStore :=
  invalidateSession st sid

/-- The request headers the middleware reads: the bearer access token (none
models an absent or empty authorization header, after the Bearer-strip and the
falsy check on the resulting string) and the x-refresh header. -/
structure MwRequest where
  authorization : Option Token
  xRefresh : Option Token
deriving DecidableEq

/-- The observable outcome of one deserializeUser pass: res.locals.user, the
x-access-token response header, whether reIssueAccessToken was called, and
whether next() was invoked (the middleware never sends a response itself). -/
structure MwResult where
  localsUser : Option Claims
  xAccessToken : Option Token
  reissueAttempted : Bool
  nextCalled : Bool
deriving DecidableEq

/-- deserializeUser from src/middleware/deserializeUser.ts. If no access token
is present, next(). Verify the access token; if it decodes, attach the decoded
identity to res.locals.user and next(). If the verification reported expired
and a refresh token header is present, call reIssueAccessToken; if that yields
a token set it on the x-access-token response header; then (unconditionally in
the source) verify the reissue result — the source coerces a false reissue
result to the string "false", which is malformed — and attach its decoded
field to res.locals.user. In every remaining case, next() with nothing
attached. -/
def deserializeUser (now : Nat) (users : List User) (st : SessionStore)
    (req : MwRequest) : MwResult :=
  match req.authorization with
  | none => ⟨none, none, false, true⟩
  | some accessToken =>
    let v := verifyJwt now accessToken
    match v.decoded with
    | some decoded => ⟨some decoded, none, false, true⟩
    | none =>
      if v.expired && req.xRefresh.isSome then
        let newAccessToken :=
          reIssueAccessToken now users st (req.xRefresh.getD (Token.malformed ""))
        let result := verifyJwt now (newAccessToken.getD (Token.malformed "false"))
        ⟨result.decoded, newAccessToken, true, true⟩
      else ⟨none, none, false, true⟩

/-- A product document; the ownership field `user` holds the owner's id
(String(product.user) in the source — already a string here). The remaining
fields are the mutable content the update replaces. -/
structure Product where
  productId : String
  user : String
  title : String
  description : String
  price : String
  image : String
deriving DecidableEq

/-- The product collection. -/
abbrev ProductStore := List Product

/-- An update request body for a product (the content fields). -/
structure ProductUpdate where
  title : String
  description : String
  price : String
  image : String
deriving DecidableEq

/-- findProduct of src/service/product.service.ts specialized to the
\x7b productId \x7d filter the controller uses: findOne on the collection. -/
def findProduct (store : ProductStore) (productId : String) : Option Product :=
  store.find? (fun p => p.productId == productId)

/-- Applying an update body to a product document. -/
def applyUpdate (p : Product) (u : ProductUpdate) : Product :=
  { p with title := u.title, description := u.description,
           price := u.price, image := u.image }

/-- findAndUpdateProduct of src/service/product.service.ts with \x7b new: true \x7d:
update the matching document and return the updated document. -/
def findAndUpdateProduct (store : ProductStore) (productId : String)
    (update : ProductUpdate) : Option Product × ProductStore :=
  match findProduct store productId with
  | none => (none, store)
  | some p =>
    let p' := applyUpdate p update
    (some p', store.map (fun q => if q.productId == productId then p' else q))

/-- deleteProduct of src/service/product.service.ts: deleteOne on the
\x7b productId \x7d filter. -/
def deleteProduct (store : ProductStore) (productId : String) : ProductStore :=
  store.filter (fun q => !(q.productId == productId))

/-- What a product handler sends back: res.sendStatus(code) or
res.send(product | null). -/
inductive HandlerResponse where
  | sendStatus (code : Nat)
  | sendProduct (p : Option Product)
deriving DecidableEq

/-- updateProductHandler from src/controller/product.controller.ts: 404 when
the product is absent, 403 when String(product.user) differs from the caller's
id (res.locals.user._id), otherwise findAndUpdateProduct with \x7b new: true \x7d
and send the updated product. Returns the response and the resulting store. -/
def updateProductHandler (store : ProductStore) (userId productId : String)
    (update : ProductUpdate) : HandlerResponse × ProductStore :=
  match findProduct store productId with
  | none => (.sendStatus 404, store)
  | some product =>
    if product.user != userId then (.sendStatus 403, store)
    else
      let updated := findAndUpdateProduct store productId update
      (.sendProduct updated.1, updated.2)

/-- deleteProductHandler from src/controller/product.controller.ts: 404 when
the product is absent, 403 when String(product.user) differs from the caller's
id, otherwise deleteProduct and sendStatus 200. -/
def deleteProductHandler (store : ProductStore) (userId productId : String) :
    HandlerResponse × ProductStore :=
  match findProduct store productId with
  | none => (.sendStatus 404, store)
  | some product =>
    if product.user != userId then (.sendStatus 403, store)
    else (.sendStatus 200, deleteProduct store productId)

/-- The operations that mutate the session collection: session creation (on
login) and invalidation (on logout). These are the only writes the core ever
performs on sessions — records are never physically deleted. -/
inductive StoreOp where
  | create (newId : Nat) (userId userAgent : String) (now : Nat)
  | invalidate (sid : Nat)
deriving DecidableEq

/-- Applying a session-store operation to the collection. -/
def applyOp (st : SessionStore) : StoreOp → SessionStore
  | .create newId userId userAgent now =>
      (createSession st newId userId userAgent now).2
  | .invalidate sid => invalidateSession st sid

/-! ## Concrete fixtures (mirroring the repository's test fixtures) -/

/-- A stored user, as in the test fixtures (jane.doe@example.com). -/
def demoUser : User :=
  ⟨"u1", "jane.doe@example.com", "Jane Doe", hashOf "Password123"⟩

/-- An active session owned by demoUser. -/
def demoSession : Session := ⟨1, "u1", true, "PostmanRuntime/7.28.4", 0, 0⟩

/-- An access token for demoUser that is already expired at time 5. -/
def demoExpiredAccess : Token :=
  Token.signed (userSnapshot demoUser) (some 3) Alg.RS256 privateKeyId

/-- A well-signed refresh token referencing demoSession, unexpired at
time 5. -/
def demoRefresh : Token :=
  Token.signed (Claims.session 1) (some 1000) Alg.RS256 privateKeyId

/-- A stored product, owned by demoUser. -/
def demoProduct : Product :=
  ⟨"product_xxqm8z3eho", "u1", "Canon EOS 1500D", "a camera", "879.99",
    "https://i.imgur.com/QlRphfQ.jpg"⟩

/-! ## Theorems about the Token Codec -/

/-- C2: verifyJwt returns exactly one of three results: \x7b valid:false,
expired:false, payload:null \x7d when the token is malformed or its signature is
invalid; \x7b valid:false, expired:true, payload:null \x7d when it is well-signed
but past its expiry; \x7b valid:true, expired:false, payload: the decoded
claims \x7d when it is well-signed and unexpired. -/
theorem verifyJwt_trichotomy (now : Nat) (t : Token) :
    (wellSigned t = false → verifyJwt now t = ⟨false, false, none⟩) ∧
    (wellSigned t = true → tokenExpiredAt now t = true →
      verifyJwt now t = ⟨false, true, none⟩) ∧
    (wellSigned t = true → tokenExpiredAt now t = false →
      verifyJwt now t = ⟨true, false, tokenClaims t⟩) := by
  cases t with
  | malformed s =>
      refine ⟨fun _ => ?_, fun h => by simp [wellSigned] at h,
        fun h => by simp [wellSigned] at h⟩
      simp [verifyJwt, jwtVerify, JwtError.message]
  | signed payload exp alg key =>
      cases hk : (key == publicKeyId && alg == Alg.RS256) with
      | false =>
          refine ⟨fun _ => ?_, fun h => ?_, fun h => ?_⟩
          · simp [verifyJwt, jwtVerify, hk, JwtError.message]
          · rw [wellSigned, hk] at h; exact absurd h (by simp)
          · rw [wellSigned, hk] at h; exact absurd h (by simp)
      | true =>
          cases exp with
          | none =>
              refine ⟨fun h => ?_, fun _ h => ?_, fun _ _ => ?_⟩
              · rw [wellSigned, hk] at h; exact absurd h (by simp)
              · exact absurd h (by simp [tokenExpiredAt])
              · simp [verifyJwt, jwtVerify, hk, tokenClaims]
          | some e =>
              by_cases he : e ≤ now
              · refine ⟨fun h => ?_, fun _ _ => ?_, fun _ h => ?_⟩
                · rw [wellSigned, hk] at h; exact absurd h (by simp)
                · simp [verifyJwt, jwtVerify, hk, he, JwtError.message]
                · rw [tokenExpiredAt] at h
                  exact absurd h (by simp [he])
              · refine ⟨fun h => ?_, fun _ h => ?_, fun _ _ => ?_⟩
                · rw [wellSigned, hk] at h; exact absurd h (by simp)
                · rw [tokenExpiredAt] at h
                  exact absurd h (by simp [he])
                · simp [verifyJwt, jwtVerify, hk, he, tokenClaims]

/-- Witness for C2: a malformed token, an expired well-signed token and an
unexpired well-signed token, all evaluated at time 5. -/
theorem verifyJwt_trichotomy_witness :
    verifyJwt 5 (Token.malformed "not-a-jwt") = ⟨false, false, none⟩ ∧
    verifyJwt 5 (Token.signed (Claims.session 1) (some 3) Alg.RS256 0) =
      ⟨false, true, none⟩ ∧
    verifyJwt 5 (Token.signed (Claims.session 1) (some 9) Alg.RS256 0) =
      ⟨true, false, some (Claims.session 1)⟩ := by
  refine ⟨(verifyJwt_trichotomy 5 (Token.malformed "not-a-jwt")).1 (by rfl),
    (verifyJwt_trichotomy 5 (Token.signed (Claims.session 1) (some 3) Alg.RS256 0)).2.1
      (by rfl) (by rfl), ?_⟩
  have h := (verifyJwt_trichotomy 5
    (Token.signed (Claims.session 1) (some 9) Alg.RS256 0)).2.2 (by rfl) (by rfl)
  simpa [tokenClaims] using h

/-- C8: verifyJwt is total and pure — for every input the underlying verifier
either returns a decoded payload, which verifyJwt wraps as
\x7b valid:true, expired:false, decoded \x7d, or throws some error, which the
try/catch maps to \x7b valid:false, expired: message = "jwt expired",
decoded:null \x7d; no other outcome exists and no state is mutated (the only
side effect in the source is the console.error log of the caught error). -/
theorem verifyJwt_total (now : Nat) (t : Token) :
    (∃ d, jwtVerify now publicKeyId t = Except.ok d ∧
      verifyJwt now t = ⟨true, false, some d⟩) ∨
    (∃ e, jwtVerify now publicKeyId t = Except.error e ∧
      verifyJwt now t = ⟨false, e.message == "jwt expired", none⟩) := by
  cases h : jwtVerify now publicKeyId t with
  | ok d => exact Or.inl ⟨d, rfl, by simp [verifyJwt, h]⟩
  | error e => exact Or.inr ⟨e, rfl, by simp [verifyJwt, h]⟩

/-- C9: signJwt always signs with the configured private key and the RS256
algorithm — the algorithm field is applied after spreading the caller's
options, so it wins in every case, including when the caller's options request
a different algorithm; the payload and the expiresIn option pass through
unchanged. -/
theorem signJwt_always_RS256 (now : Nat) (c : Claims) (opts : Option SignOptions) :
    signJwt now c opts =
      Token.signed c ((opts.bind SignOptions.expiresIn).map (fun ttl => now + ttl))
        Alg.RS256 privateKeyId ∧
    tokenAlg (signJwt now c (some { algorithm := some Alg.HS256 })) =
      some Alg.RS256 := by
  constructor
  · cases opts with
    | none => rfl
    | some o => rfl
  · rfl

/-! ## Session store lemmas -/

/-- Invalidation leaves the session identifier untouched. -/
theorem invalidate_entry_id (s : Session) (sid : Nat) :
    (if s._id == sid then { s with valid := false } else s)._id = s._id := by
  split <;> rfl

/-- Looking up any identifier after an invalidation finds the same record as
before, with its valid flag cleared when the identifier matched. -/
theorem findSessionById_invalidate (st : SessionStore) (sid tid : Nat) :
    findSessionById (invalidateSession st sid) tid =
      (findSessionById st tid).map
        (fun s => if s._id == sid then { s with valid := false } else s) := by
  unfold findSessionById invalidateSession
  rw [List.find?_map]
  have hcomp :
      ((fun s : Session => s._id == tid) ∘
        (fun s : Session => if s._id == sid then { s with valid := false } else s)) =
      (fun s : Session => s._id == tid) := by
    funext s
    simp only [Function.comp]
    rw [invalidate_entry_id]
  rw [hcomp]

/-- A found session's identifier matches the query. -/
theorem findSessionById_id (st : SessionStore) (sid : Nat) (s : Session)
    (h : findSessionById st sid = some s) : s._id == sid := by
  unfold findSessionById at h
  simpa using List.find?_some h

/-- The underlying verifier only ever returns a token's own embedded
payload. -/
theorem jwtVerify_ok_claims (now k : Nat) (t : Token) (d : Claims)
    (h : jwtVerify now k t = Except.ok d) : tokenClaims t = some d := by
  cases t with
  | malformed s => exact absurd h (by simp [jwtVerify])
  | signed payload exp alg key =>
    rw [tokenClaims]
    cases exp with
    | none =>
      simp only [jwtVerify] at h
      by_cases hk : (key == k && alg == Alg.RS256) = true
      · rw [if_pos hk] at h; cases h; rfl
      · rw [if_neg hk] at h; exact absurd h (by simp)
    | some e =>
      simp only [jwtVerify] at h
      by_cases hk : (key == k && alg == Alg.RS256) = true
      · rw [if_pos hk] at h
        by_cases he : e ≤ now
        · rw [if_pos he] at h; exact absurd h (by simp)
        · rw [if_neg he] at h; cases h; rfl
      · rw [if_neg hk] at h; exact absurd h (by simp)

/-- A successfully decoded token carries exactly its embedded payload. -/
theorem verifyJwt_decoded_claims (now : Nat) (t : Token) (c : Claims)
    (h : (verifyJwt now t).decoded = some c) : tokenClaims t = some c := by
  cases hv : jwtVerify now publicKeyId t with
  | ok d =>
    unfold verifyJwt at h
    rw [hv] at h
    simp at h
    rw [← h]
    exact jwtVerify_ok_claims now publicKeyId t d hv
  | error e =>
    unfold verifyJwt at h
    rw [hv] at h
    simp at h

/-- A freshly signed token with a positive time to live verifies at issuance
time as valid, unexpired, and decoding to its payload. -/
theorem verifyJwt_signJwt_fresh (now ttl : Nat) (c : Claims) (h : 0 < ttl) :
    verifyJwt now (signJwt now c (some { expiresIn := some ttl })) =
      ⟨true, false, some c⟩ := by
  have hlt : ¬ (now + ttl ≤ now) := by omega
  simp [signJwt, mergeSignOptions, verifyJwt, jwtVerify, privateKeyId,
    publicKeyId, hlt]

/-- Inversion of a successful reissue: every some result arises from a
decoded session reference, a found valid session and a found owning user, and
is the freshly signed short-TTL access token for that user's snapshot. -/
theorem reIssue_eq_some (now : Nat) (users : List User) (st : SessionStore)
    (rt t : Token) (h : reIssueAccessToken now users st rt = some t) :
    ∃ sid session user,
      (verifyJwt now rt).decoded = some (Claims.session sid) ∧
      findSessionById st sid = some session ∧
      session.valid = true ∧
      findUserById users session.user = some user ∧
      t = signJwt now (userSnapshot user) (some { expiresIn := some accessTokenTtl }) := by
  unfold reIssueAccessToken at h
  split at h
  next => exact absurd h (by simp)
  next claims hd =>
    split at h
    next => exact absurd h (by simp)
    next sid hs =>
      split at h
      next => exact absurd h (by simp)
      next session hfound =>
        split at h
        next hvalid =>
          split at h
          next => exact absurd h (by simp)
          next user huser =>
            refine ⟨sid, session, user, ?_, hfound, hvalid, huser, ?_⟩
            · cases claims with
              | user i e n => simp [Claims.sessionOf] at hs
              | session sid2 =>
                rw [Claims.sessionOf] at hs
                cases hs
                exact hd
            · cases h; rfl
        next => exact absurd h (by simp)

/-- The converse direction: when all three checks pass, reissue succeeds with
the fresh access token. -/
theorem reIssue_of_checks (now : Nat) (users : List User) (st : SessionStore)
    (rt : Token) (sid : Nat) (session : Session) (user : User)
    (hd : (verifyJwt now rt).decoded = some (Claims.session sid))
    (hfound : findSessionById st sid = some session)
    (hvalid : session.valid = true)
    (huser : findUserById users session.user = some user) :
    reIssueAccessToken now users st rt =
      some (signJwt now (userSnapshot user) (some { expiresIn := some accessTokenTtl })) := by
  unfold reIssueAccessToken
  rw [hd]
  simp [Claims.sessionOf, hfound, hvalid, huser]

/-- A verification that reports valid=false decoded nothing. -/
theorem verifyJwt_not_valid_decoded (now : Nat) (t : Token)
    (h : (verifyJwt now t).valid = false) : (verifyJwt now t).decoded = none := by
  unfold verifyJwt at h
  unfold verifyJwt
  cases hv : jwtVerify now publicKeyId t with
  | ok d => rw [hv] at h; exact absurd h (by simp)
  | error e => rfl

/-- C5: reIssueAccessToken never raises — it is a total function — and
returns null whenever the refresh token fails verification (syntactically
invalid, signature-invalid or expired), whenever the referenced session is
absent or has valid=false, and whenever the session's owning user is absent;
it returns a new access token exactly when all three checks pass. -/
theorem reIssueAccessToken_spec (now : Nat) (users : List User)
    (st : SessionStore) (rt : Token) :
    ((verifyJwt now rt).valid = false → reIssueAccessToken now users st rt = none) ∧
    (∀ sid, (verifyJwt now rt).decoded = some (Claims.session sid) →
      findSessionById st sid = none →
      reIssueAccessToken now users st rt = none) ∧
    (∀ sid session, (verifyJwt now rt).decoded = some (Claims.session sid) →
      findSessionById st sid = some session → session.valid = false →
      reIssueAccessToken now users st rt = none) ∧
    (∀ sid session, (verifyJwt now rt).decoded = some (Claims.session sid) →
      findSessionById st sid = some session → session.valid = true →
      findUserById users session.user = none →
      reIssueAccessToken now users st rt = none) ∧
    ((reIssueAccessToken now users st rt).isSome = true ↔
      ∃ sid session user,
        (verifyJwt now rt).decoded = some (Claims.session sid) ∧
        findSessionById st sid = some session ∧
        session.valid = true ∧
        findUserById users session.user = some user) := by
  refine ⟨?_, ?_, ?_, ?_, ?_, ?_⟩
  · intro hval
    unfold reIssueAccessToken
    rw [verifyJwt_not_valid_decoded now rt hval]
  · intro sid hd hnone
    unfold reIssueAccessToken
    rw [hd]
    simp only [Claims.sessionOf]
    rw [hnone]
  · intro sid session hd hfound hinvalid
    unfold reIssueAccessToken
    rw [hd]
    simp only [Claims.sessionOf]
    rw [hfound]
    simp [hinvalid]
  · intro sid session hd hfound hvalid hnouser
    unfold reIssueAccessToken
    rw [hd]
    simp only [Claims.sessionOf]
    rw [hfound]
    simp [hvalid, hnouser]
  · intro h
    obtain ⟨t, ht⟩ := Option.isSome_iff_exists.mp h
    obtain ⟨sid, session, user, h1, h2, h3, h4, _⟩ :=
      reIssue_eq_some now users st rt t ht
    exact ⟨sid, session, user, h1, h2, h3, h4⟩
  · rintro ⟨sid, session, user, h1, h2, h3, h4⟩
    rw [reIssue_of_checks now users st rt sid session user h1 h2 h3 h4]
    rfl

/-- Witness for C5: a malformed refresh token yields null; the usual fixture
with an active session and its owner yields a token. -/
theorem reIssueAccessToken_spec_witness :
    reIssueAccessToken 5 [demoUser] [demoSession] (Token.malformed "bad") = none ∧
    (reIssueAccessToken 5 [demoUser] [demoSession] demoRefresh).isSome = true := by
  constructor
  · exact (reIssueAccessToken_spec 5 [demoUser] [demoSession]
      (Token.malformed "bad")).1 (by rfl)
  · exact (reIssueAccessToken_spec 5 [demoUser] [demoSession] demoRefresh).2.2.2.2.mpr
      ⟨1, demoSession, demoUser, by rfl, by rfl, rfl, by rfl⟩

/-- C1: once logout(sessionId) has been called, every subsequent
reIssueAccessToken call with any refresh token referencing that session
returns null, regardless of the refresh token's own remaining
time-to-live. -/
theorem logout_revokes_reissue (now : Nat) (users : List User)
    (st : SessionStore) (sid : Nat) (rt : Token)
    (h : tokenClaims rt = some (Claims.session sid)) :
    reIssueAccessToken now users (logout st sid) rt = none := by
  unfold reIssueAccessToken
  cases hd : (verifyJwt now rt).decoded with
  | none => rfl
  | some claims =>
    have hc : claims = Claims.session sid := by
      have h2 := verifyJwt_decoded_claims now rt claims hd
      rw [h] at h2
      exact (Option.some.inj h2).symm
    subst hc
    simp only [Claims.sessionOf]
    unfold logout
    rw [findSessionById_invalidate]
    cases hs : findSessionById st sid with
    | none => rfl
    | some s =>
      have hid : s._id = sid := by
        simpa using findSessionById_id st sid s hs
      simp [hid]

/-- Witness for C1: the fixture session is logged out and the still-unexpired
fixture refresh token (995 seconds of time-to-live left at time 5) no longer
reissues. -/
theorem logout_revokes_reissue_witness :
    reIssueAccessToken 5 [demoUser] (logout [demoSession] 1) demoRefresh = none := by
  exact logout_revokes_reissue 5 [demoUser] [demoSession] 1 demoRefresh (by rfl)

/-- Looking up a session right after logging it out finds, if anything, an
invalidated record. -/
theorem logout_invalid (st : SessionStore) (sid : Nat) (s : Session)
    (h : findSessionById (logout st sid) sid = some s) : s.valid = false := by
  unfold logout at h
  rw [findSessionById_invalidate] at h
  cases hfind : findSessionById st sid with
  | none => rw [hfind] at h; exact absurd h (by simp)
  | some s0 =>
    rw [hfind] at h
    have hid : s0._id = sid := by
      simpa using findSessionById_id st sid s0 hfind
    simp [hid] at h
    rw [← h]

/-- C6: every session-store operation (create on login, invalidate on logout)
preserves the monotonicity invariant — a session whose valid flag is false
stays false under every operation; invalidate/logout is idempotent, a no-op on
a nonexistent session, and after each of two consecutive logout calls on the
same session the looked-up session has valid=false. -/
theorem session_monotonicity (st : SessionStore) :
    (∀ op sid s, findSessionById st sid = some s → s.valid = false →
      ∃ s', findSessionById (applyOp st op) sid = some s' ∧ s'.valid = false) ∧
    (∀ sid, invalidateSession (invalidateSession st sid) sid =
      invalidateSession st sid) ∧
    (∀ sid, findSessionById st sid = none → invalidateSession st sid = st) ∧
    (∀ sid s, findSessionById (logout st sid) sid = some s → s.valid = false) ∧
    (∀ sid s, findSessionById (logout (logout st sid) sid) sid = some s →
      s.valid = false) := by
  refine ⟨?_, ?_, ?_, ?_, ?_⟩
  · intro op sid s hfind hval
    cases op with
    | create newId userId userAgent now2 =>
      refine ⟨s, ?_, hval⟩
      have hf : List.find? (fun x => x._id == sid) st = some s := hfind
      show List.find? (fun x => x._id == sid) (st ++ [_]) = some s
      rw [List.find?_append, hf]
      rfl
    | invalidate sid2 =>
      refine ⟨if s._id == sid2 then { s with valid := false } else s, ?_, ?_⟩
      · show findSessionById (invalidateSession st sid2) sid = _
        rw [findSessionById_invalidate, hfind]
        rfl
      · by_cases h : (s._id == sid2) = true
        · simp [h]
        · simp [h, hval]
  · intro sid
    unfold invalidateSession
    rw [List.map_map]
    apply List.map_congr_left
    intro a _
    by_cases h : (a._id == sid) = true
    · simp [Function.comp, h]
    · simp [Function.comp, h]
  · intro sid hnone
    unfold findSessionById at hnone
    rw [List.find?_eq_none] at hnone
    unfold invalidateSession
    have hid : ∀ a ∈ st, (if a._id == sid then { a with valid := false } else a) = a := by
      intro a ha
      rw [if_neg]
      simpa using hnone a ha
    rw [List.map_congr_left hid, List.map_id']
  · intro sid s h
    exact logout_invalid st sid s h
  · intro sid s h
    exact logout_invalid (logout st sid) sid s h

/-- Witness for C6: an already-invalid session stays invalid under a second
invalidation; double logout on the fixture store; a no-op invalidation of a
missing identifier. -/
theorem session_monotonicity_witness :
    (∃ s', findSessionById
        (applyOp [⟨2, "u1", false, "ua", 0, 0⟩] (StoreOp.invalidate 2)) 2 =
          some s' ∧ s'.valid = false) ∧
    invalidateSession (invalidateSession [demoSession] 1) 1 =
      invalidateSession [demoSession] 1 ∧
    invalidateSession [demoSession] 99 = [demoSession] ∧
    (⟨1, "u1", false, "PostmanRuntime/7.28.4", 0, 0⟩ : Session).valid = false := by
  refine ⟨?_, ?_, ?_, ?_⟩
  · exact (session_monotonicity [⟨2, "u1", false, "ua", 0, 0⟩]).1
      (StoreOp.invalidate 2) 2 ⟨2, "u1", false, "ua", 0, 0⟩ rfl rfl
  · exact (session_monotonicity [demoSession]).2.1 1
  · exact (session_monotonicity [demoSession]).2.2.1 99 rfl
  · exact (session_monotonicity [demoSession]).2.2.2.2 1
      ⟨1, "u1", false, "PostmanRuntime/7.28.4", 0, 0⟩ rfl

/-- C7: login on an (email, password) pair matching a stored user creates a
new ACTIVE session and returns an access token (short TTL) whose decoded
payload is the stored user's denormalized snapshot and a refresh token (long
TTL) whose decoded payload references the newly created session. -/
theorem login_success (now newSid : Nat) (users : List User) (st : SessionStore)
    (email password userAgent : String) (u : User)
    (hu : findUserByEmail users email = some u)
    (hp : validatePassword u password = true)
    (hfresh : findSessionById st newSid = none) :
    ∃ lok, login now newSid users st email password userAgent = Except.ok lok ∧
      lok.sessionId = newSid ∧
      verifyJwt now lok.accessToken = ⟨true, false, some (userSnapshot u)⟩ ∧
      tokenExp lok.accessToken = some (now + accessTokenTtl) ∧
      verifyJwt now lok.refreshToken = ⟨true, false, some (Claims.session newSid)⟩ ∧
      tokenExp lok.refreshToken = some (now + refreshTokenTtl) ∧
      findSessionById lok.sessions newSid =
        some ⟨newSid, u._id, true, userAgent, now, now⟩ ∧
      accessTokenTtl < refreshTokenTtl := by
  refine ⟨⟨signJwt now (userSnapshot u) (some { expiresIn := some accessTokenTtl }),
      signJwt now (Claims.session newSid) (some { expiresIn := some refreshTokenTtl }),
      st ++ [⟨newSid, u._id, true, userAgent, now, now⟩], newSid⟩,
    ?_, rfl, ?_, rfl, ?_, rfl, ?_, by decide⟩
  · unfold login
    rw [hu]
    simp [hp, createSession]
  · exact verifyJwt_signJwt_fresh now accessTokenTtl (userSnapshot u) (by decide)
  · exact verifyJwt_signJwt_fresh now refreshTokenTtl (Claims.session newSid)
      (by decide)
  · show List.find? (fun x => x._id == newSid) (st ++ [_]) = _
    rw [List.find?_append]
    unfold findSessionById at hfresh
    rw [hfresh]
    simp [List.find?]

/-- Witness for C7: the fixture user logs in with the matching password at
time 5 against an empty session collection. -/
theorem login_success_witness :
    ∃ lok, login 5 1 [demoUser] [] "jane.doe@example.com" "Password123" "ua" =
        Except.ok lok ∧
      verifyJwt 5 lok.accessToken = ⟨true, false, some (userSnapshot demoUser)⟩ ∧
      findSessionById lok.sessions 1 = some ⟨1, "u1", true, "ua", 5, 5⟩ := by
  obtain ⟨lok, h1, _, h3, _, _, _, h7, _⟩ :=
    login_success 5 1 [demoUser] [] "jane.doe@example.com" "Password123" "ua"
      demoUser (by rfl) (by rfl) (by rfl)
  exact ⟨lok, h1, h3, h7⟩

/-! ## Middleware lemmas -/

/-- Reduction of deserializeUser when the access token decodes. -/
theorem deserializeUser_decoded (now : Nat) (users : List User)
    (st : SessionStore) (atk : Token) (xr : Option Token) (d : Claims)
    (hdec : (verifyJwt now atk).decoded = some d) :
    deserializeUser now users st ⟨some atk, xr⟩ = ⟨some d, none, false, true⟩ := by
  simp only [deserializeUser]
  rw [hdec]

/-- Reduction of deserializeUser when the access token does not decode: the
refresh branch is taken exactly when the verification reported expired and a
refresh header is present. -/
theorem deserializeUser_reduce (now : Nat) (users : List User)
    (st : SessionStore) (atk : Token) (xr : Option Token)
    (hdec : (verifyJwt now atk).decoded = none) :
    deserializeUser now users st ⟨some atk, xr⟩ =
      if (verifyJwt now atk).expired && xr.isSome then
        ⟨(verifyJwt now ((reIssueAccessToken now users st
            (xr.getD (Token.malformed ""))).getD (Token.malformed "false"))).decoded,
          reIssueAccessToken now users st (xr.getD (Token.malformed "")),
          true, true⟩
      else ⟨none, none, false, true⟩ := by
  simp only [deserializeUser]
  rw [hdec]

/-- The middleware always calls next(). -/
theorem deserializeUser_next (now : Nat) (users : List User)
    (st : SessionStore) (req : MwRequest) :
    (deserializeUser now users st req).nextCalled = true := by
  obtain ⟨auth, xr⟩ := req
  cases auth with
  | none => rfl
  | some atk =>
    cases hdec : (verifyJwt now atk).decoded with
    | some d => rw [deserializeUser_decoded now users st atk xr d hdec]
    | none =>
      rw [deserializeUser_reduce now users st atk xr hdec]
      split <;> rfl

/-- The middleware attempts a reissue exactly when an access token is present,
fails to decode, was reported expired, and a refresh header is present. -/
theorem deserializeUser_attempted (now : Nat) (users : List User)
    (st : SessionStore) (req : MwRequest) :
    (deserializeUser now users st req).reissueAttempted = true ↔
      ∃ atk, req.authorization = some atk ∧
        (verifyJwt now atk).decoded = none ∧
        (verifyJwt now atk).expired = true ∧ req.xRefresh.isSome = true := by
  obtain ⟨auth, xr⟩ := req
  cases auth with
  | none => simp [deserializeUser]
  | some atk =>
    cases hdec : (verifyJwt now atk).decoded with
    | some d =>
      rw [deserializeUser_decoded now users st atk xr d hdec]
      constructor
      · intro h
        exact absurd h (by simp)
      · rintro ⟨atk', ha, hd', -, -⟩
        obtain rfl : atk = atk' := by simpa using ha
        rw [hdec] at hd'
        exact absurd hd' (by simp)
    | none =>
      rw [deserializeUser_reduce now users st atk xr hdec]
      cases hexp : (verifyJwt now atk).expired with
      | false =>
        constructor
        · intro h
          exact absurd h (by simp)
        · rintro ⟨atk', ha, -, he', -⟩
          obtain rfl : atk = atk' := by simpa using ha
          rw [hexp] at he'
          exact absurd he' (by simp)
      | true =>
        cases xr with
        | none =>
          constructor
          · intro h
            exact absurd h (by simp)
          · rintro ⟨atk', -, -, -, hx⟩
            exact absurd hx (by simp)
        | some rtk =>
          constructor
          · intro _
            exact ⟨atk, rfl, hdec, hexp, rfl⟩
          · intro _
            simp

/-- C4: the middleware attempts token reissue only when verification reports
expired=true and a refresh token header is present; with no access token, an
invalid-but-unexpired token, or an expired token without a refresh header, it
proceeds with no identity attached and no refresh attempt; and it always calls
next() — it never rejects the request itself. -/
theorem deserializeUser_gating (now : Nat) (users : List User)
    (st : SessionStore) (req : MwRequest) :
    (deserializeUser now users st req).nextCalled = true ∧
    ((deserializeUser now users st req).reissueAttempted = true ↔
      ∃ atk, req.authorization = some atk ∧
        (verifyJwt now atk).decoded = none ∧
        (verifyJwt now atk).expired = true ∧ req.xRefresh.isSome = true) ∧
    (req.authorization = none →
      deserializeUser now users st req = ⟨none, none, false, true⟩) ∧
    (∀ atk, req.authorization = some atk → (verifyJwt now atk).decoded = none →
      (verifyJwt now atk).expired = false →
      deserializeUser now users st req = ⟨none, none, false, true⟩) ∧
    (∀ atk, req.authorization = some atk → (verifyJwt now atk).decoded = none →
      req.xRefresh = none →
      deserializeUser now users st req = ⟨none, none, false, true⟩) := by
  refine ⟨deserializeUser_next now users st req,
    deserializeUser_attempted now users st req, ?_, ?_, ?_⟩
  · obtain ⟨auth, xr⟩ := req
    intro h
    have h' : auth = none := h
    subst h'
    rfl
  · obtain ⟨auth, xr⟩ := req
    intro atk ha hdec hexp
    have h' : auth = some atk := ha
    subst h'
    rw [deserializeUser_reduce now users st atk xr hdec, hexp]
    simp
  · obtain ⟨auth, xr⟩ := req
    intro atk ha hdec hxr
    have h1 : auth = some atk := ha
    have h2 : xr = none := hxr
    subst h1
    subst h2
    rw [deserializeUser_reduce now users st atk none hdec]
    simp

/-- Witness for C4: a request whose access token has a wrong signing key
(invalid, not expired) next to a perfectly good refresh token attaches
nothing, sets no header and attempts no reissue. -/
theorem deserializeUser_gating_witness :
    deserializeUser 5 [demoUser] [demoSession]
      ⟨some (Token.signed (userSnapshot demoUser) (some 100) Alg.RS256 7),
        some demoRefresh⟩ = ⟨none, none, false, true⟩ := by
  exact (deserializeUser_gating 5 [demoUser] [demoSession]
      ⟨some (Token.signed (userSnapshot demoUser) (some 100) Alg.RS256 7),
        some demoRefresh⟩).2.2.2.1
    (Token.signed (userSnapshot demoUser) (some 100) Alg.RS256 7)
    rfl (by rfl) (by rfl)

/-- C3: on an expired access token with a refresh header present the
middleware calls reIssueAccessToken; a successful reissue is set on the
x-access-token response header and its decoded identity is attached to the
request context; a null reissue sets no header and the request proceeds
unauthenticated (next() is still called). -/
theorem deserializeUser_refresh (now : Nat) (users : List User)
    (st : SessionStore) (atk rtk : Token)
    (hdec : (verifyJwt now atk).decoded = none)
    (hexp : (verifyJwt now atk).expired = true) :
    (deserializeUser now users st ⟨some atk, some rtk⟩).reissueAttempted = true ∧
    (deserializeUser now users st ⟨some atk, some rtk⟩).nextCalled = true ∧
    (∀ t, reIssueAccessToken now users st rtk = some t →
      (deserializeUser now users st ⟨some atk, some rtk⟩).xAccessToken = some t ∧
      (deserializeUser now users st ⟨some atk, some rtk⟩).localsUser =
        (verifyJwt now t).decoded ∧
      (deserializeUser now users st ⟨some atk, some rtk⟩).localsUser ≠ none) ∧
    (reIssueAccessToken now users st rtk = none →
      (deserializeUser now users st ⟨some atk, some rtk⟩).xAccessToken = none ∧
      (deserializeUser now users st ⟨some atk, some rtk⟩).localsUser = none) := by
  have hred : deserializeUser now users st ⟨some atk, some rtk⟩ =
      ⟨(verifyJwt now ((reIssueAccessToken now users st rtk).getD
          (Token.malformed "false"))).decoded,
        reIssueAccessToken now users st rtk, true, true⟩ := by
    rw [deserializeUser_reduce now users st atk (some rtk) hdec, hexp]
    simp
  refine ⟨by rw [hred], by rw [hred], ?_, ?_⟩
  · intro t ht
    rw [hred, ht]
    refine ⟨rfl, rfl, ?_⟩
    obtain ⟨sid, session, user, -, -, -, -, hshape⟩ :=
      reIssue_eq_some now users st rtk t ht
    show (verifyJwt now ((some t).getD (Token.malformed "false"))).decoded ≠ none
    rw [Option.getD_some, hshape,
      verifyJwt_signJwt_fresh now accessTokenTtl (userSnapshot user) (by decide)]
    simp
  · intro hnone
    rw [hred, hnone]
    exact ⟨rfl, rfl⟩

/-- Witness for C3: the fixture's expired access token plus valid refresh
token yields the freshly reissued token on the response header with reissue
attempted. -/
theorem deserializeUser_refresh_witness :
    (deserializeUser 5 [demoUser] [demoSession]
        ⟨some demoExpiredAccess, some demoRefresh⟩).xAccessToken =
      some (signJwt 5 (userSnapshot demoUser)
        (some { expiresIn := some accessTokenTtl })) ∧
    (deserializeUser 5 [demoUser] [demoSession]
        ⟨some demoExpiredAccess, some demoRefresh⟩).reissueAttempted = true := by
  have h := deserializeUser_refresh 5 [demoUser] [demoSession]
    demoExpiredAccess demoRefresh (by rfl) (by rfl)
  exact ⟨(h.2.2.1 _ (by rfl)).1, h.1⟩

/-! ## Product handler theorems -/

/-- C10: for both the product update and product delete handlers — a missing
product yields 404 with no product modified; an existing product whose owner
id differs (as strings) from the caller's id yields 403 with the product
neither updated nor deleted; only a caller whose id equals the owner reaches
the update (which rewrites exactly the addressed product) or the delete
(which removes it). -/
theorem productHandlers_authz (store : ProductStore) (userId productId : String)
    (update : ProductUpdate) :
    (findProduct store productId = none →
      updateProductHandler store userId productId update =
        (HandlerResponse.sendStatus 404, store) ∧
      deleteProductHandler store userId productId =
        (HandlerResponse.sendStatus 404, store)) ∧
    (∀ p, findProduct store productId = some p → p.user ≠ userId →
      updateProductHandler store userId productId update =
        (HandlerResponse.sendStatus 403, store) ∧
      deleteProductHandler store userId productId =
        (HandlerResponse.sendStatus 403, store)) ∧
    (∀ p, findProduct store productId = some p → p.user = userId →
      updateProductHandler store userId productId update =
        (HandlerResponse.sendProduct (some (applyUpdate p update)),
          store.map (fun q =>
            if q.productId == productId then applyUpdate p update else q)) ∧
      deleteProductHandler store userId productId =
        (HandlerResponse.sendStatus 200, deleteProduct store productId)) := by
  refine ⟨?_, ?_, ?_⟩
  · intro hnone
    constructor
    · unfold updateProductHandler
      rw [hnone]
    · unfold deleteProductHandler
      rw [hnone]
  · intro p hfound hne
    constructor
    · unfold updateProductHandler
      rw [hfound]
      simp [hne]
    · unfold deleteProductHandler
      rw [hfound]
      simp [hne]
  · intro p hfound heq
    constructor
    · unfold updateProductHandler
      rw [hfound]
      simp [heq, findAndUpdateProduct, hfound]
    · unfold deleteProductHandler
      rw [hfound]
      simp [heq]

/-- Witness for C10: a non-owner caller gets 403 with the store untouched;
the owner's delete returns 200 with the product removed. -/
theorem productHandlers_authz_witness :
    updateProductHandler [demoProduct] "intruder" "product_xxqm8z3eho"
        ⟨"t2", "d2", "1", "i2"⟩ =
      (HandlerResponse.sendStatus 403, [demoProduct]) ∧
    deleteProductHandler [demoProduct] "u1" "product_xxqm8z3eho" =
      (HandlerResponse.sendStatus 200,
        deleteProduct [demoProduct] "product_xxqm8z3eho") := by
  constructor
  · exact ((productHandlers_authz [demoProduct] "intruder" "product_xxqm8z3eho"
      ⟨"t2", "d2", "1", "i2"⟩).2.1 demoProduct (by rfl) (by decide)).1
  · exact ((productHandlers_authz [demoProduct] "u1" "product_xxqm8z3eho"
      ⟨"t2", "d2", "1", "i2"⟩).2.2 demoProduct (by rfl) (by rfl)).2

end RestApi
